import Mathlib

/-
Verification of the delivery-time prediction service (src/main.py).

Numbers: Python floats are modelled as exact rationals (ℚ) for the
arithmetic pipeline, and as reals (ℝ) for the trigonometric haversine
computation.  Python's `round(x, 2)` (round-half-to-even on the scaled
value) is modelled by `round2` / `round2R`.

External collaborators are opaque parameters, as the spec directs:
the trained model is a function `List (String × FVal) → ℚ`, the fitted
categorical encoder is a function `String → FVal → ℚ` together with its
column list, and the geocoding HTTP call is a function returning an
`HttpResult`.  The haversine distance as seen by the rational pipeline
(the source computes it in float and rounds to 2 decimals) is abstracted
as a parameter `distF` with the same four-argument signature.
-/

/-- Round-half-to-even to the nearest integer, Python's `round` on exact
values: below one half round down, above one half round up, on a tie take
the even neighbour. -/
def rne (x : ℚ) : ℤ :=
  if x - ⌊x⌋ < 1/2 then ⌊x⌋
  else if 1/2 < x - ⌊x⌋ then ⌊x⌋ + 1
  else if 2 ∣ ⌊x⌋ then ⌊x⌋ else ⌊x⌋ + 1

/-- Python's `round(x, 2)`. -/
def round2 (x : ℚ) : ℚ := (rne (100 * x) : ℚ) / 100

/-- A cell of the pandas feature frame: numeric, or a raw categorical
string before encoding. -/
inductive FVal where
  | num (q : ℚ)
  | cat (s : String)
deriving DecidableEq

/-- The `DeliveryRequest` pydantic model of src/main.py (lines 69-102):
field-for-field, floats as ℚ, ints as ℤ, `Literal` enumerations and the
city code as `String`.  The `Field` bounds are the separate predicate
`DeliveryRequest.valid` below. -/
structure DeliveryRequest where
  restaurant_latitude : ℚ
  restaurant_longitude : ℚ
  delivery_latitude : ℚ
  delivery_longitude : ℚ
  delivery_person_age : ℚ
  delivery_person_ratings : ℚ
  weather_conditions : String
  road_traffic_density : String
  type_of_order : String
  type_of_vehicle : String
  city : String
  festival : String
  day : ℤ
  month : ℤ
  day_of_week : ℤ
  is_weekend : ℤ
  hour : ℤ
  is_rush_hour : ℤ
  vehicle_condition : ℤ
  multiple_deliveries : ℤ
  order_prepare_time : ℚ
  city_code : String
deriving DecidableEq

/-- The pydantic `Field` constraints on `DeliveryRequest`
(src/main.py lines 73-102), enforced before the handler runs. -/
def DeliveryRequest.valid (r : DeliveryRequest) : Prop :=
  -90 ≤ r.restaurant_latitude ∧ r.restaurant_latitude ≤ 90 ∧
  -180 ≤ r.restaurant_longitude ∧ r.restaurant_longitude ≤ 180 ∧
  -90 ≤ r.delivery_latitude ∧ r.delivery_latitude ≤ 90 ∧
  -180 ≤ r.delivery_longitude ∧ r.delivery_longitude ≤ 180 ∧
  18 ≤ r.delivery_person_age ∧ r.delivery_person_age ≤ 65 ∧
  1 ≤ r.delivery_person_ratings ∧ r.delivery_person_ratings ≤ 5 ∧
  r.weather_conditions ∈ ["Sunny", "Stormy", "Cloudy", "Fog", "Sandstorms", "Windy"] ∧
  r.road_traffic_density ∈ ["Low", "Medium", "High", "Jam"] ∧
  r.type_of_order ∈ ["Snack", "Meal", "Drinks", "Buffet"] ∧
  r.type_of_vehicle ∈ ["motorcycle", "scooter", "electric_scooter"] ∧
  r.city ∈ ["Urban", "Semi-Urban", "Metropolitian"] ∧
  r.festival ∈ ["Yes", "No"] ∧
  1 ≤ r.day ∧ r.day ≤ 31 ∧
  1 ≤ r.month ∧ r.month ≤ 12 ∧
  0 ≤ r.day_of_week ∧ r.day_of_week ≤ 6 ∧
  0 ≤ r.is_weekend ∧ r.is_weekend ≤ 1 ∧
  0 ≤ r.hour ∧ r.hour ≤ 23 ∧
  0 ≤ r.is_rush_hour ∧ r.is_rush_hour ≤ 1 ∧
  0 ≤ r.vehicle_condition ∧ r.vehicle_condition ≤ 3 ∧
  0 ≤ r.multiple_deliveries ∧ r.multiple_deliveries ≤ 4 ∧
  0 ≤ r.order_prepare_time ∧ r.order_prepare_time ≤ 180 ∧
  3 ≤ r.city_code.length ∧ r.city_code.length ≤ 4

instance (r : DeliveryRequest) : Decidable r.valid := by
  unfold DeliveryRequest.valid; infer_instance

/-- `estimated_delivery_time = max(data["order_prepare_time"] * 0.6, 10)`
(src/main.py line 148). -/
def estimated_delivery_time_feature (prep : ℚ) : ℚ := max (prep * 0.6) 10

/-- `avg_speed_kmh = (distance / estimated_delivery_time) * 60 if
estimated_delivery_time > 0 else 20` (src/main.py line 149). -/
def avg_speed_feature (prep distance : ℚ) : ℚ :=
  if 0 < estimated_delivery_time_feature prep then
    distance / estimated_delivery_time_feature prep * 60
  else 20

/-- The `features` dictionary of `prepare_features_for_prediction`
(src/main.py lines 152-177), in source order. -/
def buildFeatures (data : DeliveryRequest) (distance : ℚ) : List (String × FVal) :=
  [("Delivery_person_Age", .num data.delivery_person_age),
   ("Delivery_person_Ratings", .num data.delivery_person_ratings),
   ("Restaurant_latitude", .num data.restaurant_latitude),
   ("Restaurant_longitude", .num data.restaurant_longitude),
   ("Delivery_location_latitude", .num data.delivery_latitude),
   ("Delivery_location_longitude", .num data.delivery_longitude),
   ("Weather_conditions", .cat data.weather_conditions),
   ("Road_traffic_density", .cat data.road_traffic_density),
   ("Vehicle_condition", .num (data.vehicle_condition : ℚ)),
   ("Type_of_order", .cat data.type_of_order),
   ("Type_of_vehicle", .cat data.type_of_vehicle),
   ("multiple_deliveries", .num (data.multiple_deliveries : ℚ)),
   ("Festival", .cat data.festival),
   ("City", .cat data.city),
   ("City_code", .cat data.city_code),
   ("order_prepare_time", .num data.order_prepare_time),
   ("distance", .num distance),
   ("day", .num (data.day : ℚ)),
   ("month", .num (data.month : ℚ)),
   ("day_of_week", .num (data.day_of_week : ℚ)),
   ("is_weekend", .num (data.is_weekend : ℚ)),
   ("hour", .num (data.hour : ℚ)),
   ("is_rush_hour", .num (data.is_rush_hour : ℚ)),
   ("avg_speed_kmh", .num (avg_speed_feature data.order_prepare_time distance))]

/-- The column names the feature dictionary produces, fixed for every
request and distance. -/
def builtColumns : List String :=
  ["Delivery_person_Age", "Delivery_person_Ratings", "Restaurant_latitude",
   "Restaurant_longitude", "Delivery_location_latitude", "Delivery_location_longitude",
   "Weather_conditions", "Road_traffic_density", "Vehicle_condition",
   "Type_of_order", "Type_of_vehicle", "multiple_deliveries", "Festival",
   "City", "City_code", "order_prepare_time", "distance", "day", "month",
   "day_of_week", "is_weekend", "hour", "is_rush_hour", "avg_speed_kmh"]

/-- `col in df.columns` for the column-list frame model. -/
def hasCol (df : List (String × FVal)) (c : String) : Bool :=
  df.any (fun p => p.1 == c)

/-- `df[c]` as an optional lookup (first matching column). -/
def lookupCol (c : String) (df : List (String × FVal)) : Option FVal :=
  match df with
  | [] => none
  | p :: rest => if p.1 == c then some p.2 else lookupCol c rest

/-- `input_df[cat_cols] = encoder.transform(input_df[cat_cols])`
(src/main.py lines 183-184): selecting `cat_cols` raises a KeyError (here:
`none`) when a fitted column is absent; otherwise each fitted column's cell
is replaced by its encoded numeric value.  `enc` is the opaque fitted
encoder. -/
def encodeCols (encCols : List String) (enc : String → FVal → ℚ)
    (df : List (String × FVal)) : Option (List (String × FVal)) :=
  if encCols.all (hasCol df) then
    some (df.map (fun p => if p.1 ∈ encCols then (p.1, FVal.num (enc p.1 p.2)) else p))
  else none

/-- `for col in feature_columns: if col not in input_df.columns:
input_df[col] = 0` (src/main.py lines 187-189), with the growing frame
threaded through the loop. -/
def addMissing (featureCols : List String) (df : List (String × FVal)) :
    List (String × FVal) :=
  match featureCols with
  | [] => df
  | c :: rest =>
      addMissing rest (if hasCol df c then df else df ++ [(c, FVal.num 0)])

/-- `input_df = input_df[feature_columns]` (src/main.py line 192): select
the canonical columns in canonical order; a missing column is a KeyError
(`none`). -/
def reorder (featureCols : List String) (df : List (String × FVal)) :
    Option (List (String × FVal)) :=
  match featureCols with
  | [] => some []
  | c :: rest => do
      let v ← lookupCol c df
      let tail ← reorder rest df
      pure ((c, v) :: tail)

/-- `prepare_features_for_prediction` (src/main.py lines 142-194). -/
def prepare_features_for_prediction (encCols : List String)
    (enc : String → FVal → ℚ) (featureCols : List String)
    (data : DeliveryRequest) (distance : ℚ) : Option (List (String × FVal)) := do
  let df := buildFeatures data distance
  let encoded ← encodeCols encCols enc df
  reorder featureCols (addMissing featureCols encoded)

/-- The 2-decimal rendering of `{distance:.2f}` for the nonnegative
distances reaching the oversize-distance message. -/
def fmt2 (d : ℚ) : String :=
  let n := rne (100 * d)
  let r := (n % 100).toNat
  toString (n / 100) ++ "." ++ (if r < 10 then "0" ++ toString r else toString r)

/-- The `HTTPException` values the handlers of src/main.py raise, each
constructor keeping the data its detail message is built from. -/
inductive PredError where
  | distTooLarge (d : ℚ)
  | invalidCoords
  | featureKeyMissing
  | geocodeRestaurantFailed
  | geocodeDeliveryFailed
  | geocodeUnavailable (msg : String)
  | invalidGeocodedRequest
deriving DecidableEq

/-- The HTTP status code of each raised error. -/
def PredError.statusCode : PredError → ℕ
  | .distTooLarge _ => 400
  | .invalidCoords => 400
  | .featureKeyMissing => 500
  | .geocodeRestaurantFailed => 400
  | .geocodeDeliveryFailed => 400
  | .geocodeUnavailable _ => 500
  | .invalidGeocodedRequest => 500

/-- The `detail` string of each raised error (src/main.py lines 243, 247,
329, 334, 64, 313-315, 376). -/
def PredError.detail : PredError → String
  | .distTooLarge d =>
      "Distance too large (" ++ fmt2 d ++ " km). Maximum 100km for delivery."
  | .invalidCoords => "Invalid coordinates - distance is zero"
  | .featureKeyMissing => "Prediction failed: feature key missing"
  | .geocodeRestaurantFailed => "Failed to geocode restaurant address"
  | .geocodeDeliveryFailed => "Failed to geocode delivery address"
  | .geocodeUnavailable m => "Geocoding error: " ++ m
  | .invalidGeocodedRequest => "Address-based prediction failed: validation error"

/-- Python's truthiness `bool(n)` on an int. -/
def pyBool (n : ℤ) : Bool := n ≠ 0

/-- The `conditions` echo of the /predict response (src/main.py lines
299-306). -/
structure Conditions where
  weather : String
  traffic : String
  is_rush_hour : Bool
  is_weekend : Bool
  festival : String
  order_type : String
deriving DecidableEq

/-- The numeric and echoed fields of a successful /predict response
(src/main.py lines 290-308); the wall-clock `order_date` is outside the
model. -/
structure PredictionOutcome where
  success : Bool
  predicted_delivery_time_minutes : ℚ
  calculated_distance_km : ℚ
  preparation_time_minutes : ℚ
  estimated_delivery_time_minutes : ℚ
  average_speed_kmh : ℚ
  conditions : Conditions
deriving DecidableEq

/-- The distance the handler computes from the request's two coordinate
pairs (src/main.py lines 232-237), with the float haversine-and-round
pipeline abstracted as `distF`. -/
def reqDistance (distF : ℚ → ℚ → ℚ → ℚ → ℚ) (r : DeliveryRequest) : ℚ :=
  distF r.restaurant_latitude r.restaurant_longitude
        r.delivery_latitude r.delivery_longitude

/-- The /predict handler `predict_delivery_time` (src/main.py lines
224-316): distance gate, feature preparation, opaque model invocation,
`np.clip(prediction, 5, 120)`, breakdown, and the +20 offset on the
returned total.  A KeyError inside feature preparation surfaces through
the generic exception handler as a 500 error. -/
def predict_delivery_time (distF : ℚ → ℚ → ℚ → ℚ → ℚ)
    (encCols : List String) (enc : String → FVal → ℚ)
    (featureCols : List String) (model : List (String × FVal) → ℚ)
    (request : DeliveryRequest) : Except PredError PredictionOutcome :=
  let distance := reqDistance distF request
  if 100 < distance then .error (.distTooLarge distance)
  else if distance ≤ 0 then .error .invalidCoords
  else
    match prepare_features_for_prediction encCols enc featureCols request distance with
    | none => .error .featureKeyMissing
    | some input_df =>
      let prediction := model input_df
      let predicted_time := min (max prediction 5) 120
      let prep_time := request.order_prepare_time
      let estimated_delivery_time := predicted_time + prep_time
      let avg_speed :=
        if 0 < estimated_delivery_time then distance / estimated_delivery_time * 60 else 0
      .ok { success := true
            predicted_delivery_time_minutes := round2 (predicted_time + 20)
            calculated_distance_km := distance
            preparation_time_minutes := round2 prep_time
            estimated_delivery_time_minutes := round2 estimated_delivery_time
            average_speed_kmh := round2 avg_speed
            conditions := { weather := request.weather_conditions
                            traffic := request.road_traffic_density
                            is_rush_hour := pyBool request.is_rush_hour
                            is_weekend := pyBool request.is_weekend
                            festival := request.festival
                            order_type := request.type_of_order } }

/-- A latitude/longitude pair as the geocoder returns it. -/
structure Coord where
  latitude : ℚ
  longitude : ℚ
deriving DecidableEq

/-- A geometry entry of the OpenCage response body. -/
structure GeoPoint where
  lat : ℚ
  lng : ℚ
deriving DecidableEq

/-- The outcome of the `requests.get` call in `geocode_address`: an HTTP
response with its status code and parsed `results` list, or a raised
transport exception (timeout, connection failure). -/
inductive HttpResult where
  | success (status : ℕ) (results : List GeoPoint)
  | transportError (msg : String)

/-- `geocode_address` (src/main.py lines 48-64): on a 200 response with a
nonempty `results` list, the first geometry; on a non-200 status or empty
results, `None`; a transport exception is re-raised as the 500
"Geocoding error" HTTPException. -/
def geocode_address (http : String → String → HttpResult)
    (address : String) (api_key : String) : Except PredError (Option Coord) :=
  match http address api_key with
  | .transportError msg => .error (.geocodeUnavailable msg)
  | .success status results =>
      if status = 200 then
        match results with
        | [] => .ok none
        | g :: _ => .ok (some { latitude := g.lat, longitude := g.lng })
      else .ok none

/-- The `AddressBasedRequest` pydantic model (src/main.py lines 105-137). -/
structure AddressBasedRequest where
  restaurant_address : String
  delivery_address : String
  opencage_api_key : String
  delivery_person_age : ℚ
  delivery_person_ratings : ℚ
  weather_conditions : String
  road_traffic_density : String
  type_of_order : String
  type_of_vehicle : String
  city : String
  festival : String
  day : ℤ
  month : ℤ
  day_of_week : ℤ
  is_weekend : ℤ
  hour : ℤ
  is_rush_hour : ℤ
  vehicle_condition : ℤ
  multiple_deliveries : ℤ
  order_prepare_time : ℚ
  city_code : String
deriving DecidableEq

/-- The `DeliveryRequest(...)` construction of `predict_with_addresses`
(src/main.py lines 337-360): the two resolved coordinate pairs plus the
remaining fields of the address request. -/
def toCoordRequest (r : AddressBasedRequest) (rc dc : Coord) : DeliveryRequest :=
  { restaurant_latitude := rc.latitude
    restaurant_longitude := rc.longitude
    delivery_latitude := dc.latitude
    delivery_longitude := dc.longitude
    delivery_person_age := r.delivery_person_age
    delivery_person_ratings := r.delivery_person_ratings
    weather_conditions := r.weather_conditions
    road_traffic_density := r.road_traffic_density
    type_of_order := r.type_of_order
    type_of_vehicle := r.type_of_vehicle
    city := r.city
    festival := r.festival
    day := r.day
    month := r.month
    day_of_week := r.day_of_week
    is_weekend := r.is_weekend
    hour := r.hour
    is_rush_hour := r.is_rush_hour
    vehicle_condition := r.vehicle_condition
    multiple_deliveries := r.multiple_deliveries
    order_prepare_time := r.order_prepare_time
    city_code := r.city_code }

/-- A successful /predict-with-address response: the /predict response
plus the `geocoded_coordinates` object (src/main.py lines 366-369). -/
structure AddressOutcome where
  base : PredictionOutcome
  geocoded_restaurant : Coord
  geocoded_delivery : Coord
deriving DecidableEq

/-- The /predict-with-address handler `predict_with_addresses`
(src/main.py lines 320-376): geocode the restaurant address, then the
delivery address, failing with a 400 when either resolves to `None` (a
transport 500 from the geocoder propagates); build the coordinate-based
request — whose pydantic validation failure would surface as a 500 —
delegate to `predict_delivery_time`, and augment the result with the two
resolved coordinate pairs. -/
def predict_with_addresses (http : String → String → HttpResult)
    (distF : ℚ → ℚ → ℚ → ℚ → ℚ) (encCols : List String)
    (enc : String → FVal → ℚ) (featureCols : List String)
    (model : List (String × FVal) → ℚ) (request : AddressBasedRequest) :
    Except PredError AddressOutcome := do
  let rest_coords ← geocode_address http request.restaurant_address request.opencage_api_key
  match rest_coords with
  | none => throw .geocodeRestaurantFailed
  | some rc => do
    let del_coords ← geocode_address http request.delivery_address request.opencage_api_key
    match del_coords with
    | none => throw .geocodeDeliveryFailed
    | some dc =>
      let coord_request := toCoordRequest request rc dc
      if coord_request.valid then
        match predict_delivery_time distF encCols enc featureCols model coord_request with
        | .error e => throw e
        | .ok result =>
            pure { base := result, geocoded_restaurant := rc, geocoded_delivery := dc }
      else throw .invalidGeocodedRequest

/-- `radians(x)` (math.radians). -/
noncomputable def radians (x : ℝ) : ℝ := x * (Real.pi / 180)

/-- Round-half-to-even to the nearest integer over ℝ, as `rne` over ℚ. -/
noncomputable def rneR (x : ℝ) : ℤ :=
  if x - ⌊x⌋ < 1/2 then ⌊x⌋
  else if 1/2 < x - ⌊x⌋ then ⌊x⌋ + 1
  else if 2 ∣ ⌊x⌋ then ⌊x⌋ else ⌊x⌋ + 1

/-- Python's `round(x, 2)` over ℝ. -/
noncomputable def round2R (x : ℝ) : ℝ := (rneR (100 * x) : ℝ) / 100

/-- `math.atan2(y, x)`. -/
noncomputable def atan2 (y x : ℝ) : ℝ :=
  if 0 < x then Real.arctan (y / x)
  else if x < 0 then
    (if 0 ≤ y then Real.arctan (y / x) + Real.pi else Real.arctan (y / x) - Real.pi)
  else if 0 < y then Real.pi / 2
  else if y < 0 then -(Real.pi / 2)
  else 0

/-- `calculate_distance` (src/main.py lines 33-45): the haversine
great-circle distance with Earth radius 6371 km, rounded to 2 decimals. -/
noncomputable def calculate_distance (lat1 lon1 lat2 lon2 : ℝ) : ℝ :=
  let lat1r := radians lat1
  let lon1r := radians lon1
  let lat2r := radians lat2
  let lon2r := radians lon2
  let dlat := lat2r - lat1r
  let dlon := lon2r - lon1r
  let a := Real.sin (dlat / 2) ^ 2 +
    Real.cos lat1r * Real.cos lat2r * Real.sin (dlon / 2) ^ 2
  let c := 2 * atan2 (Real.sqrt a) (Real.sqrt (1 - a))
  round2R (6371 * c)

/-- A sample valid request used to instantiate the theorems below at
concrete inputs. -/
def rq0 : DeliveryRequest :=
  { restaurant_latitude := 22745049/1000000
    restaurant_longitude := 75892471/1000000
    delivery_latitude := 22765049/1000000
    delivery_longitude := 75912471/1000000
    delivery_person_age := 28
    delivery_person_ratings := 9/2
    weather_conditions := "Sunny"
    road_traffic_density := "Medium"
    type_of_order := "Meal"
    type_of_vehicle := "motorcycle"
    city := "Urban"
    festival := "No"
    day := 15
    month := 12
    day_of_week := 3
    is_weekend := 0
    hour := 18
    is_rush_hour := 1
    vehicle_condition := 2
    multiple_deliveries := 0
    order_prepare_time := 15
    city_code := "INDO" }

/-- The sample request with the longest accepted preparation time. -/
def rq180 : DeliveryRequest := { rq0 with order_prepare_time := 180 }

/-- A constant stand-in for the computed haversine distance. -/
def constDist (d : ℚ) : ℚ → ℚ → ℚ → ℚ → ℚ := fun _ _ _ _ => d

/-- A constant stand-in for the opaque trained model. -/
def constModel (v : ℚ) : List (String × FVal) → ℚ := fun _ => v

/-- A stand-in for the opaque fitted categorical encoder. -/
def enc0 : String → FVal → ℚ := fun _ _ => 0

/-- A sample address-based request for the concrete instantiations. -/
def arq0 : AddressBasedRequest :=
  { restaurant_address := "Vatika Business Park, Sector 49, Gurgaon"
    delivery_address := "DLF Cyber City, Gurgaon"
    opencage_api_key := "demo-key"
    delivery_person_age := 28
    delivery_person_ratings := 9/2
    weather_conditions := "Sunny"
    road_traffic_density := "Medium"
    type_of_order := "Meal"
    type_of_vehicle := "motorcycle"
    city := "Urban"
    festival := "No"
    day := 15
    month := 12
    day_of_week := 3
    is_weekend := 0
    hour := 18
    is_rush_hour := 1
    vehicle_condition := 2
    multiple_deliveries := 0
    order_prepare_time := 15
    city_code := "INDO" }

/-- The frame after the encoder assignment, when every fitted column is
present. -/
def encodedFrame (encCols : List String) (enc : String → FVal → ℚ)
    (r : DeliveryRequest) (d : ℚ) : List (String × FVal) :=
  (buildFeatures r d).map
    (fun p => if p.1 ∈ encCols then (p.1, FVal.num (enc p.1 p.2)) else p)

theorem rne_bounds (x : ℚ) : x - 1/2 ≤ (rne x : ℚ) ∧ (rne x : ℚ) ≤ x + 1/2 := by
  have h0 : (⌊x⌋ : ℚ) ≤ x := Int.floor_le x
  have h1 : x < ⌊x⌋ + 1 := Int.lt_floor_add_one x
  unfold rne
  split_ifs <;> constructor <;> push_cast <;> linarith

theorem rne_ge (n : ℤ) (x : ℚ) (h : (n : ℚ) ≤ x) : n ≤ rne x := by
  have hb := (rne_bounds x).1
  have h2 : (n - 1 : ℤ) < rne x := by
    have : ((n : ℚ) - 1 : ℚ) < (rne x : ℚ) := by linarith
    exact_mod_cast this
  omega

theorem rne_le (n : ℤ) (x : ℚ) (h : x ≤ (n : ℚ)) : rne x ≤ n := by
  have hb := (rne_bounds x).2
  have h2 : rne x < (n + 1 : ℤ) := by
    have : (rne x : ℚ) < ((n : ℚ) + 1 : ℚ) := by linarith
    exact_mod_cast this
  omega

theorem round2_in_Icc (x : ℚ) (a b : ℤ) (ha : (a : ℚ) ≤ x) (hb : x ≤ (b : ℚ)) :
    (a : ℚ) ≤ round2 x ∧ round2 x ≤ (b : ℚ) := by
  have hga : (100 * a : ℤ) ≤ rne (100 * x) := by
    apply rne_ge; push_cast; linarith
  have hgb : rne (100 * x) ≤ (100 * b : ℤ) := by
    apply rne_le; push_cast; linarith
  have hga' : ((100 * a : ℤ) : ℚ) ≤ (rne (100 * x) : ℚ) := by exact_mod_cast hga
  have hgb' : ((rne (100 * x) : ℤ) : ℚ) ≤ ((100 * b : ℤ) : ℚ) := by exact_mod_cast hgb
  unfold round2
  push_cast at hga' hgb' ⊢
  constructor <;> linarith

theorem round2_zero : round2 0 = 0 := by
  have : rne 0 = 0 := by unfold rne; norm_num
  unfold round2
  rw [mul_zero, this]
  norm_num

theorem est_feature_pos (prep : ℚ) : 0 < estimated_delivery_time_feature prep :=
  lt_of_lt_of_le (by norm_num) (le_max_right (prep * 0.6) 10)

theorem avg_speed_feature_eq (prep d : ℚ) :
    avg_speed_feature prep d = d / estimated_delivery_time_feature prep * 60 :=
  if_pos (est_feature_pos prep)

theorem hasCol_append (df1 df2 : List (String × FVal)) (c : String) :
    hasCol (df1 ++ df2) c = (hasCol df1 c || hasCol df2 c) := by
  simp [hasCol, List.any_append]

theorem lookupCol_isSome_iff (c : String) (df : List (String × FVal)) :
    (lookupCol c df).isSome ↔ hasCol df c = true := by
  induction df with
  | nil => simp [lookupCol, hasCol]
  | cons p rest ih =>
      by_cases hp : (p.1 == c) = true
      · simp [lookupCol, hasCol, hp]
      · simp only [lookupCol, hasCol, List.any_cons, hp, if_false, Bool.false_or]
        simpa [hasCol] using ih

theorem lookupCol_append_of_some (c : String) (df l : List (String × FVal))
    (v : FVal) (h : lookupCol c df = some v) : lookupCol c (df ++ l) = some v := by
  induction df with
  | nil => simp [lookupCol] at h
  | cons p rest ih =>
      by_cases hp : (p.1 == c) = true
      · simpa [lookupCol, hp] using h
      · simp only [lookupCol, hp, if_false, List.cons_append] at h ⊢
        exact ih h

theorem lookupCol_append_right (c : String) (df l : List (String × FVal))
    (h : hasCol df c = false) : lookupCol c (df ++ l) = lookupCol c l := by
  induction df with
  | nil => rfl
  | cons p rest ih =>
      simp only [hasCol, List.any_cons, Bool.or_eq_false_iff] at h
      simp only [lookupCol, List.cons_append, h.1, if_false]
      exact ih (by simp [hasCol, h.2])

theorem addMissing_lookup_preserve (fc : List String) :
    ∀ df c v, lookupCol c df = some v → lookupCol c (addMissing fc df) = some v := by
  induction fc with
  | nil => intro df c v h; exact h
  | cons a rest ih =>
      intro df c v h
      simp only [addMissing]
      by_cases ha : hasCol df a = true
      · rw [if_pos ha]; exact ih df c v h
      · rw [if_neg (by simp [ha])]
        exact ih _ c v (lookupCol_append_of_some c df _ v h)

theorem addMissing_hasCol_preserve (fc : List String) :
    ∀ df c, hasCol df c = true → hasCol (addMissing fc df) c = true := by
  intro df c h
  obtain ⟨v, hv⟩ := Option.isSome_iff_exists.mp ((lookupCol_isSome_iff c df).mpr h)
  have := addMissing_lookup_preserve fc df c v hv
  exact (lookupCol_isSome_iff c _).mp (by simp [this])

theorem addMissing_lookup_missing (fc : List String) :
    ∀ df c, c ∈ fc → hasCol df c = false →
      lookupCol c (addMissing fc df) = some (FVal.num 0) := by
  induction fc with
  | nil => intro df c h; cases h
  | cons a rest ih =>
      intro df c hc hno
      simp only [addMissing]
      by_cases hca : c = a
      · subst hca
        rw [if_neg (by simp [hno])]
        apply addMissing_lookup_preserve
        rw [lookupCol_append_right c df _ hno]
        simp [lookupCol]
      · have hcr : c ∈ rest := by
          rcases List.mem_cons.mp hc with h | h
          · exact absurd h hca
          · exact h
        by_cases ha : hasCol df a = true
        · rw [if_pos ha]; exact ih df c hcr hno
        · rw [if_neg (by simp [ha])]
          apply ih _ c hcr
          rw [hasCol_append, hno]
          simp [hasCol, Ne.symm hca]

theorem addMissing_hasCol_of_mem (fc : List String) :
    ∀ df c, c ∈ fc → hasCol (addMissing fc df) c = true := by
  intro df c hc
  by_cases h : hasCol df c = true
  · exact addMissing_hasCol_preserve fc df c h
  · have := addMissing_lookup_missing fc df c hc (by simpa using h)
    exact (lookupCol_isSome_iff c _).mp (by simp [this])

theorem reorder_eq_map (fc : List String) :
    ∀ df, (∀ c ∈ fc, hasCol df c = true) →
      reorder fc df =
        some (fc.map (fun c => (c, (lookupCol c df).getD (FVal.num 0)))) := by
  induction fc with
  | nil => intro df _; rfl
  | cons a rest ih =>
      intro df h
      have ha : hasCol df a = true := h a (List.mem_cons_self a rest)
      obtain ⟨v, hv⟩ := Option.isSome_iff_exists.mp ((lookupCol_isSome_iff a df).mpr ha)
      have hr := ih df (fun c hc => h c (List.mem_cons_of_mem a hc))
      simp [reorder, hv, hr]

theorem hasCol_buildFeatures (r : DeliveryRequest) (d : ℚ) (c : String) :
    hasCol (buildFeatures r d) c = true ↔ c ∈ builtColumns := by
  have h : hasCol (buildFeatures r d) c = builtColumns.any (fun n => n == c) := rfl
  rw [h, List.any_eq_true]
  simp only [beq_iff_eq]
  exact ⟨fun ⟨x, hx, he⟩ => he ▸ hx, fun hc => ⟨c, hc, rfl⟩⟩

theorem hasCol_map_encode (encCols : List String) (enc : String → FVal → ℚ) :
    ∀ (df : List (String × FVal)) (c : String),
      hasCol (df.map (fun p => if p.1 ∈ encCols then (p.1, FVal.num (enc p.1 p.2)) else p)) c =
        hasCol df c := by
  intro df c
  induction df with
  | nil => rfl
  | cons p rest ih =>
      simp only [List.map_cons, hasCol, List.any_cons] at ih ⊢
      rw [ih]
      congr 1
      by_cases hp : p.1 ∈ encCols <;> simp [hp]

theorem hasCol_encodedFrame (encCols : List String) (enc : String → FVal → ℚ)
    (r : DeliveryRequest) (d : ℚ) (c : String) :
    hasCol (encodedFrame encCols enc r d) c = hasCol (buildFeatures r d) c :=
  hasCol_map_encode encCols enc (buildFeatures r d) c

theorem encodeCols_eq (encCols : List String) (enc : String → FVal → ℚ)
    (r : DeliveryRequest) (d : ℚ) (hEnc : ∀ c ∈ encCols, c ∈ builtColumns) :
    encodeCols encCols enc (buildFeatures r d) = some (encodedFrame encCols enc r d) := by
  unfold encodeCols encodedFrame
  rw [if_pos]
  rw [List.all_eq_true]
  intro c hc
  exact (hasCol_buildFeatures r d c).mpr (hEnc c hc)

theorem prepare_eq (encCols : List String) (enc : String → FVal → ℚ)
    (featureCols : List String) (r : DeliveryRequest) (d : ℚ)
    (hEnc : ∀ c ∈ encCols, c ∈ builtColumns) :
    prepare_features_for_prediction encCols enc featureCols r d =
      some (featureCols.map (fun c =>
        (c, (lookupCol c (addMissing featureCols (encodedFrame encCols enc r d))).getD
          (FVal.num 0)))) := by
  simp only [prepare_features_for_prediction, encodeCols_eq encCols enc r d hEnc,
    Option.some_bind]
  exact reorder_eq_map featureCols _
    (fun c hc => addMissing_hasCol_of_mem featureCols _ c hc)

theorem predict_ok (distF : ℚ → ℚ → ℚ → ℚ → ℚ) (encCols : List String)
    (enc : String → FVal → ℚ) (featureCols : List String)
    (model : List (String × FVal) → ℚ) (r : DeliveryRequest)
    (df : List (String × FVal))
    (hdf : prepare_features_for_prediction encCols enc featureCols r
      (reqDistance distF r) = some df)
    (h0 : 0 < reqDistance distF r) (h100 : reqDistance distF r ≤ 100) :
    predict_delivery_time distF encCols enc featureCols model r =
      .ok { success := true
            predicted_delivery_time_minutes :=
              round2 (min (max (model df) 5) 120 + 20)
            calculated_distance_km := reqDistance distF r
            preparation_time_minutes := round2 r.order_prepare_time
            estimated_delivery_time_minutes :=
              round2 (min (max (model df) 5) 120 + r.order_prepare_time)
            average_speed_kmh :=
              round2 (if 0 < min (max (model df) 5) 120 + r.order_prepare_time then
                reqDistance distF r / (min (max (model df) 5) 120 + r.order_prepare_time) * 60
              else 0)
            conditions := { weather := r.weather_conditions
                            traffic := r.road_traffic_density
                            is_rush_hour := pyBool r.is_rush_hour
                            is_weekend := pyBool r.is_weekend
                            festival := r.festival
                            order_type := r.type_of_order } } := by
  simp only [predict_delivery_time]
  rw [if_neg (not_lt.mpr h100), if_neg (not_le.mpr h0), hdf]

theorem predict_err_large (distF : ℚ → ℚ → ℚ → ℚ → ℚ) (encCols : List String)
    (enc : String → FVal → ℚ) (featureCols : List String)
    (model : List (String × FVal) → ℚ) (r : DeliveryRequest)
    (h : 100 < reqDistance distF r) :
    predict_delivery_time distF encCols enc featureCols model r =
      .error (.distTooLarge (reqDistance distF r)) := by
  simp only [predict_delivery_time]
  rw [if_pos h]

theorem predict_err_nonpos (distF : ℚ → ℚ → ℚ → ℚ → ℚ) (encCols : List String)
    (enc : String → FVal → ℚ) (featureCols : List String)
    (model : List (String × FVal) → ℚ) (r : DeliveryRequest)
    (h0 : reqDistance distF r ≤ 0) :
    predict_delivery_time distF encCols enc featureCols model r =
      .error .invalidCoords := by
  simp only [predict_delivery_time]
  rw [if_neg (by linarith : ¬ (100 : ℚ) < reqDistance distF r), if_pos h0]

theorem round2_clip_offset_bounds (x : ℚ) :
    25 ≤ round2 (min (max x 5) 120 + 20) ∧ round2 (min (max x 5) 120 + 20) ≤ 140 := by
  have hp5 : (5:ℚ) ≤ min (max x 5) 120 := le_min (le_max_right _ _) (by norm_num)
  have hp120 : min (max x 5) 120 ≤ (120:ℚ) := min_le_right _ _
  have hb := round2_in_Icc (min (max x 5) 120 + 20) 25 140
    (by push_cast; linarith) (by push_cast; linarith)
  push_cast at hb
  exact hb

/-- Claim C1: for every accepted coordinate request, the final returned
predicted_delivery_time_minutes equals the raw model output clamped to
[5, 120] plus a fixed +20-minute offset, rounded to 2 decimal places, and
therefore lies in [25, 140]. -/
theorem spec_C1 (distF : ℚ → ℚ → ℚ → ℚ → ℚ) (encCols : List String)
    (enc : String → FVal → ℚ) (featureCols : List String)
    (model : List (String × FVal) → ℚ) (r : DeliveryRequest)
    (hEnc : ∀ c ∈ encCols, c ∈ builtColumns)
    (h0 : 0 < reqDistance distF r) (h100 : reqDistance distF r ≤ 100) :
    ∃ df out,
      prepare_features_for_prediction encCols enc featureCols r
        (reqDistance distF r) = some df ∧
      predict_delivery_time distF encCols enc featureCols model r = .ok out ∧
      out.predicted_delivery_time_minutes =
        round2 (min (max (model df) 5) 120 + 20) ∧
      25 ≤ out.predicted_delivery_time_minutes ∧
      out.predicted_delivery_time_minutes ≤ 140 := by
  have hdf := prepare_eq encCols enc featureCols r (reqDistance distF r) hEnc
  exact ⟨_, _, hdf,
    predict_ok distF encCols enc featureCols model r _ hdf h0 h100, rfl,
    (round2_clip_offset_bounds _).1, (round2_clip_offset_bounds _).2⟩

/-- Witness for C1: the concrete request `rq0` at distance 3 km with a
constant model output of 50 minutes. -/
theorem spec_C1_witness :
    ∃ df out,
      prepare_features_for_prediction [] enc0 [] rq0
        (reqDistance (constDist 3) rq0) = some df ∧
      predict_delivery_time (constDist 3) [] enc0 [] (constModel 50) rq0 = .ok out ∧
      out.predicted_delivery_time_minutes =
        round2 (min (max (constModel 50 df) 5) 120 + 20) ∧
      25 ≤ out.predicted_delivery_time_minutes ∧
      out.predicted_delivery_time_minutes ≤ 140 :=
  spec_C1 (constDist 3) [] enc0 [] (constModel 50) rq0 (by simp)
    (by norm_num [reqDistance, constDist]) (by norm_num [reqDistance, constDist])

/-- Claim C2: for every accepted coordinate request, the breakdown's
estimated_delivery_time_minutes equals the pre-offset clamped prediction
plus the request's preparation minutes (not the final offset-adjusted
total), and the breakdown's average_speed_kmh equals
distance / estimated_delivery_time * 60 when that denominator is positive
and 0 when it is ≤ 0 (each reported value rounded to 2 decimals). -/
theorem spec_C2 (distF : ℚ → ℚ → ℚ → ℚ → ℚ) (encCols : List String)
    (enc : String → FVal → ℚ) (featureCols : List String)
    (model : List (String × FVal) → ℚ) (r : DeliveryRequest)
    (hEnc : ∀ c ∈ encCols, c ∈ builtColumns)
    (h0 : 0 < reqDistance distF r) (h100 : reqDistance distF r ≤ 100) :
    ∃ df out,
      prepare_features_for_prediction encCols enc featureCols r
        (reqDistance distF r) = some df ∧
      predict_delivery_time distF encCols enc featureCols model r = .ok out ∧
      out.estimated_delivery_time_minutes =
        round2 (min (max (model df) 5) 120 + r.order_prepare_time) ∧
      (0 < min (max (model df) 5) 120 + r.order_prepare_time →
        out.average_speed_kmh =
          round2 (reqDistance distF r /
            (min (max (model df) 5) 120 + r.order_prepare_time) * 60)) ∧
      (min (max (model df) 5) 120 + r.order_prepare_time ≤ 0 →
        out.average_speed_kmh = 0) := by
  have hdf := prepare_eq encCols enc featureCols r (reqDistance distF r) hEnc
  refine ⟨_, _, hdf,
    predict_ok distF encCols enc featureCols model r _ hdf h0 h100, rfl, ?_, ?_⟩
  · intro h
    simp only [if_pos h]
  · intro h
    simp only [if_neg (not_lt.mpr h), round2_zero]

/-- Witness for C2: the concrete request `rq0` at distance 3 km with a
constant model output of 50 minutes. -/
theorem spec_C2_witness :
    ∃ df out,
      prepare_features_for_prediction [] enc0 [] rq0
        (reqDistance (constDist 3) rq0) = some df ∧
      predict_delivery_time (constDist 3) [] enc0 [] (constModel 50) rq0 = .ok out ∧
      out.estimated_delivery_time_minutes =
        round2 (min (max (constModel 50 df) 5) 120 + rq0.order_prepare_time) ∧
      (0 < min (max (constModel 50 df) 5) 120 + rq0.order_prepare_time →
        out.average_speed_kmh =
          round2 (reqDistance (constDist 3) rq0 /
            (min (max (constModel 50 df) 5) 120 + rq0.order_prepare_time) * 60)) ∧
      (min (max (constModel 50 df) 5) 120 + rq0.order_prepare_time ≤ 0 →
        out.average_speed_kmh = 0) :=
  spec_C2 (constDist 3) [] enc0 [] (constModel 50) rq0 (by simp)
    (by norm_num [reqDistance, constDist]) (by norm_num [reqDistance, constDist])

/-- Claim C4: for every input combination, the assembled feature frame
has exactly the model artifact's declared feature names in the declared
order, and any feature the model expects that the assembly did not
produce is set to 0. -/
theorem spec_C4 (encCols : List String) (enc : String → FVal → ℚ)
    (featureCols : List String) (r : DeliveryRequest) (d : ℚ)
    (hEnc : ∀ c ∈ encCols, c ∈ builtColumns) :
    ∃ out,
      prepare_features_for_prediction encCols enc featureCols r d = some out ∧
      out.map Prod.fst = featureCols ∧
      ∀ c ∈ featureCols, c ∉ builtColumns → (c, FVal.num 0) ∈ out := by
  refine ⟨_, prepare_eq encCols enc featureCols r d hEnc, ?_, ?_⟩
  · rw [List.map_map]
    have hid : (Prod.fst ∘ fun c => (c,
        (lookupCol c (addMissing featureCols (encodedFrame encCols enc r d))).getD
          (FVal.num 0))) = id := rfl
    rw [hid, List.map_id]
  · intro c hc hnc
    have hno : hasCol (encodedFrame encCols enc r d) c = false := by
      rw [hasCol_encodedFrame]
      cases hhh : hasCol (buildFeatures r d) c with
      | false => rfl
      | true => exact absurd ((hasCol_buildFeatures r d c).mp hhh) hnc
    have hlk := addMissing_lookup_missing featureCols (encodedFrame encCols enc r d) c hc hno
    exact List.mem_map.mpr ⟨c, hc, by simp [hlk]⟩

/-- Witness for C4: the seven categorical columns of the artifact and a
canonical list with one feature the assembly does not produce. -/
theorem spec_C4_witness :
    ∃ out,
      prepare_features_for_prediction
        ["Weather_conditions", "Road_traffic_density", "Type_of_order",
         "Type_of_vehicle", "Festival", "City", "City_code"] enc0
        (builtColumns ++ ["extra_feature"]) rq0 3 = some out ∧
      out.map Prod.fst = builtColumns ++ ["extra_feature"] ∧
      ∀ c ∈ builtColumns ++ ["extra_feature"], c ∉ builtColumns →
        (c, FVal.num 0) ∈ out :=
  spec_C4 ["Weather_conditions", "Road_traffic_density", "Type_of_order",
      "Type_of_vehicle", "Festival", "City", "City_code"] enc0
    (builtColumns ++ ["extra_feature"]) rq0 3 (by decide)

/-- Claim C5: in feature assembly, the synthesized avg_speed_kmh feature
equals distance / max(preparation_time * 0.6, 10) * 60 for every request
and distance. -/
theorem spec_C5 (r : DeliveryRequest) (d : ℚ) :
    lookupCol "avg_speed_kmh" (buildFeatures r d) =
      some (.num (d / max (r.order_prepare_time * 0.6) 10 * 60)) := by
  simp [buildFeatures, lookupCol, avg_speed_feature, est_feature_pos,
    estimated_delivery_time_feature]

/-- Claim C9: the fallback branch that would set avg_speed_kmh to 20 when
the estimated delivery time is not positive is unreachable: the estimate
max(order_prepare_time * 0.6, 10) is always positive, so the feature
always takes the division branch. -/
theorem spec_C9 (prep d : ℚ) :
    0 < estimated_delivery_time_feature prep ∧
    avg_speed_feature prep d = d / estimated_delivery_time_feature prep * 60 :=
  ⟨est_feature_pos prep, avg_speed_feature_eq prep d⟩

theorem rneR_zero : rneR 0 = 0 := by
  unfold rneR
  rw [Int.floor_zero]
  norm_num

theorem round2R_zero : round2R 0 = 0 := by
  unfold round2R
  rw [mul_zero, rneR_zero]
  norm_num

theorem sin_half_sub_sq (u v : ℝ) :
    Real.sin ((u - v) / 2) ^ 2 = Real.sin ((v - u) / 2) ^ 2 := by
  rw [show (u - v) / 2 = -((v - u) / 2) by ring, Real.sin_neg]
  ring

theorem calculate_distance_symm (lat1 lon1 lat2 lon2 : ℝ) :
    calculate_distance lat1 lon1 lat2 lon2 = calculate_distance lat2 lon2 lat1 lon1 := by
  simp only [calculate_distance]
  rw [sin_half_sub_sq (radians lat2) (radians lat1),
    sin_half_sub_sq (radians lon2) (radians lon1),
    mul_comm (Real.cos (radians lat1)) (Real.cos (radians lat2))]

theorem calculate_distance_self (lat lon : ℝ) :
    calculate_distance lat lon lat lon = 0 := by
  simp only [calculate_distance, sub_self, zero_div, Real.sin_zero]
  norm_num [atan2, Real.sqrt_zero, Real.sqrt_one, Real.arctan_zero, round2R_zero]

/-- Claim C7: the embedded haversine distance is symmetric in its two
coordinate pairs, and the distance from any point to itself is 0. -/
theorem spec_C7 :
    (∀ lat1 lon1 lat2 lon2 : ℝ,
      calculate_distance lat1 lon1 lat2 lon2 = calculate_distance lat2 lon2 lat1 lon1) ∧
    (∀ lat lon : ℝ, calculate_distance lat lon lat lon = 0) :=
  ⟨calculate_distance_symm, calculate_distance_self⟩

/-- Claim C3: the prediction service rejects a request with a client
error exactly when the computed distance is ≤ 0 or > 100 km (so
0 < distance ≤ 100 holds for every accepted request, never silently
clamped); in the > 100 km case the 400 error's detail mentions the
computed distance, in the ≤ 0 case it is the 400 invalid-coordinates
error, and equal restaurant/delivery coordinates give haversine distance
0, hence fall in the ≤ 0 branch. -/
theorem spec_C3 (distF : ℚ → ℚ → ℚ → ℚ → ℚ) (encCols : List String)
    (enc : String → FVal → ℚ) (featureCols : List String)
    (model : List (String × FVal) → ℚ) (r : DeliveryRequest) (lat lon : ℝ)
    (hEnc : ∀ c ∈ encCols, c ∈ builtColumns) :
    ((∃ e, predict_delivery_time distF encCols enc featureCols model r = .error e) ↔
      (reqDistance distF r ≤ 0 ∨ 100 < reqDistance distF r)) ∧
    (100 < reqDistance distF r →
      predict_delivery_time distF encCols enc featureCols model r =
        .error (.distTooLarge (reqDistance distF r)) ∧
      (PredError.distTooLarge (reqDistance distF r)).statusCode = 400 ∧
      ∃ pre post, (PredError.distTooLarge (reqDistance distF r)).detail =
        pre ++ fmt2 (reqDistance distF r) ++ post) ∧
    (reqDistance distF r ≤ 0 →
      predict_delivery_time distF encCols enc featureCols model r =
        .error .invalidCoords ∧
      PredError.invalidCoords.statusCode = 400) ∧
    (¬(reqDistance distF r ≤ 0 ∨ 100 < reqDistance distF r) →
      ∃ out, predict_delivery_time distF encCols enc featureCols model r = .ok out ∧
        out.calculated_distance_km = reqDistance distF r) ∧
    calculate_distance lat lon lat lon = 0 := by
  have hacc : ¬ (reqDistance distF r ≤ 0 ∨ 100 < reqDistance distF r) →
      ∃ out, predict_delivery_time distF encCols enc featureCols model r = .ok out ∧
        out.calculated_distance_km = reqDistance distF r := by
    intro h
    push_neg at h
    have hdf := prepare_eq encCols enc featureCols r (reqDistance distF r) hEnc
    exact ⟨_, predict_ok distF encCols enc featureCols model r _ hdf h.1 h.2, rfl⟩
  refine ⟨?_, ?_, ?_, hacc, calculate_distance_self lat lon⟩
  · constructor
    · rintro ⟨e, he⟩
      by_contra h
      obtain ⟨out, hout, _⟩ := hacc h
      rw [hout] at he
      exact Except.noConfusion he
    · rintro (h | h)
      · exact ⟨_, predict_err_nonpos distF encCols enc featureCols model r h⟩
      · exact ⟨_, predict_err_large distF encCols enc featureCols model r h⟩
  · intro h
    exact ⟨predict_err_large distF encCols enc featureCols model r h, rfl,
      "Distance too large (", " km). Maximum 100km for delivery.", rfl⟩
  · intro h
    exact ⟨predict_err_nonpos distF encCols enc featureCols model r h, rfl⟩

/-- Witness for C3: the concrete request `rq0` with the constant distance
3 km and the Indore-area sample point for the self-distance conjunct. -/
theorem spec_C3_witness :
    ((∃ e, predict_delivery_time (constDist 3) [] enc0 [] (constModel 50) rq0 =
        .error e) ↔
      (reqDistance (constDist 3) rq0 ≤ 0 ∨ 100 < reqDistance (constDist 3) rq0)) ∧
    (100 < reqDistance (constDist 3) rq0 →
      predict_delivery_time (constDist 3) [] enc0 [] (constModel 50) rq0 =
        .error (.distTooLarge (reqDistance (constDist 3) rq0)) ∧
      (PredError.distTooLarge (reqDistance (constDist 3) rq0)).statusCode = 400 ∧
      ∃ pre post, (PredError.distTooLarge (reqDistance (constDist 3) rq0)).detail =
        pre ++ fmt2 (reqDistance (constDist 3) rq0) ++ post) ∧
    (reqDistance (constDist 3) rq0 ≤ 0 →
      predict_delivery_time (constDist 3) [] enc0 [] (constModel 50) rq0 =
        .error .invalidCoords ∧
      PredError.invalidCoords.statusCode = 400) ∧
    (¬(reqDistance (constDist 3) rq0 ≤ 0 ∨ 100 < reqDistance (constDist 3) rq0) →
      ∃ out, predict_delivery_time (constDist 3) [] enc0 [] (constModel 50) rq0 =
        .ok out ∧
        out.calculated_distance_km = reqDistance (constDist 3) rq0) ∧
    calculate_distance 22 75 22 75 = 0 :=
  spec_C3 (constDist 3) [] enc0 [] (constModel 50) rq0 22 75 (by simp)

/-- Claim C10 as stated is false: for an accepted request the reported
(2-decimal rounded) average_speed_kmh can be 0 even though the distance
is strictly positive.  Concretely: distance 0.01 km, preparation time
180 minutes, clamped prediction 120, so the average speed is
0.01 / 300 * 60 = 0.002, which rounds to 0.00. -/
theorem spec_C10_counterexample :
    ∃ out,
      predict_delivery_time (constDist (1/100)) [] enc0 [] (constModel 120) rq180 =
        .ok out ∧
      0 < reqDistance (constDist (1/100)) rq180 ∧
      out.average_speed_kmh = 0 := by
  have hdf := prepare_eq [] enc0 [] rq180
    (reqDistance (constDist (1/100)) rq180) (by simp)
  have hok := predict_ok (constDist (1/100)) [] enc0 [] (constModel 120) rq180 _ hdf
    (by norm_num [reqDistance, constDist]) (by norm_num [reqDistance, constDist])
  refine ⟨_, hok, by norm_num [reqDistance, constDist], ?_⟩
  have hprep : rq180.order_prepare_time = (180:ℚ) := rfl
  simp only [constModel, reqDistance, constDist, hprep]
  have hest : min (max (120:ℚ) 5) 120 + 180 = 300 := by
    rw [max_eq_left (by norm_num), min_self]
    norm_num
  rw [hest, if_pos (by norm_num : (0:ℚ) < 300)]
  have : (1/100 : ℚ) / 300 * 60 = 1/500 := by norm_num
  rw [this]
  have hfl : (⌊(100 * (1/500 : ℚ))⌋ : ℤ) = 0 := by norm_num
  unfold round2 rne
  rw [hfl]
  norm_num

/-- Claim C10 (amended): for every accepted coordinate request with the
validated nonnegative preparation time, the breakdown denominator
(clamped prediction + preparation time) is at least 5, so the zero branch
of average_speed_kmh is unreachable, and the average speed before the
2-decimal rounding is strictly positive whenever distance > 0 (the
rounded reported value may still be 0.00 for tiny distances). -/
theorem spec_C10 (distF : ℚ → ℚ → ℚ → ℚ → ℚ) (encCols : List String)
    (enc : String → FVal → ℚ) (featureCols : List String)
    (model : List (String × FVal) → ℚ) (r : DeliveryRequest)
    (hEnc : ∀ c ∈ encCols, c ∈ builtColumns)
    (h0 : 0 < reqDistance distF r) (h100 : reqDistance distF r ≤ 100)
    (hprep : 0 ≤ r.order_prepare_time) :
    ∃ df out,
      prepare_features_for_prediction encCols enc featureCols r
        (reqDistance distF r) = some df ∧
      predict_delivery_time distF encCols enc featureCols model r = .ok out ∧
      5 ≤ min (max (model df) 5) 120 + r.order_prepare_time ∧
      out.average_speed_kmh =
        round2 (reqDistance distF r /
          (min (max (model df) 5) 120 + r.order_prepare_time) * 60) ∧
      0 < reqDistance distF r /
        (min (max (model df) 5) 120 + r.order_prepare_time) * 60 := by
  obtain ⟨DF, hdf⟩ : ∃ DF, prepare_features_for_prediction encCols enc featureCols r
      (reqDistance distF r) = some DF :=
    ⟨_, prepare_eq encCols enc featureCols r (reqDistance distF r) hEnc⟩
  have hclip : (5:ℚ) ≤ min (max (model DF) 5) 120 :=
    le_min (le_max_right _ _) (by norm_num)
  have hpos : (0:ℚ) < min (max (model DF) 5) 120 + r.order_prepare_time := by linarith
  refine ⟨DF, _, hdf,
    predict_ok distF encCols enc featureCols model r DF hdf h0 h100,
    by linarith, ?_, ?_⟩
  · simp only [if_pos hpos]
  · exact mul_pos (div_pos h0 hpos) (by norm_num)

/-- Witness for the amended C10: the concrete request `rq0` at distance
3 km with a constant model output of 50 minutes. -/
theorem spec_C10_witness :
    ∃ df out,
      prepare_features_for_prediction [] enc0 [] rq0
        (reqDistance (constDist 3) rq0) = some df ∧
      predict_delivery_time (constDist 3) [] enc0 [] (constModel 50) rq0 = .ok out ∧
      5 ≤ min (max (constModel 50 df) 5) 120 + rq0.order_prepare_time ∧
      out.average_speed_kmh =
        round2 (reqDistance (constDist 3) rq0 /
          (min (max (constModel 50 df) 5) 120 + rq0.order_prepare_time) * 60) ∧
      0 < reqDistance (constDist 3) rq0 /
        (min (max (constModel 50 df) 5) 120 + rq0.order_prepare_time) * 60 :=
  spec_C10 (constDist 3) [] enc0 [] (constModel 50) rq0 (by simp)
    (by norm_num [reqDistance, constDist]) (by norm_num [reqDistance, constDist])
    (by norm_num [rq0])

/-- Claim C8: the geocoding operation returns a "not found" outcome (not
a crash) exactly when the external service responds with zero results or
a non-success status, and any transport failure surfaces as the distinct
500 "Geocoding error" outcome, so a caller can tell a temporary outage
from an unresolvable address. -/
theorem spec_C8 (http : String → String → HttpResult) (address api_key : String) :
    (∀ status results, http address api_key = .success status results →
      (geocode_address http address api_key = .ok none ↔
        (status ≠ 200 ∨ results = []))) ∧
    (∀ msg, http address api_key = .transportError msg →
      geocode_address http address api_key = .error (.geocodeUnavailable msg) ∧
      (PredError.geocodeUnavailable msg).statusCode = 500 ∧
      geocode_address http address api_key ≠ .ok none) := by
  constructor
  · intro status results h
    unfold geocode_address
    rw [h]
    by_cases hs : status = 200
    · subst hs
      cases results with
      | nil => simp
      | cons g rest => simp
    · simp [hs]
  · intro msg h
    unfold geocode_address
    rw [h]
    exact ⟨rfl, rfl, by simp⟩

/-- Claim C6: address-based prediction geocodes both addresses first; if
either fails to resolve it fails with a 400 client error whose value does
not depend on the model (so the model is not invoked); on success it
builds the coordinate-based request from the resolved coordinates plus
the remaining fields, delegates to the coordinate prediction operation,
and returns that result augmented with the two resolved coordinate
pairs. -/
theorem spec_C6 (http : String → String → HttpResult)
    (distF : ℚ → ℚ → ℚ → ℚ → ℚ) (encCols : List String)
    (enc : String → FVal → ℚ) (featureCols : List String)
    (model : List (String × FVal) → ℚ) (r : AddressBasedRequest) :
    (geocode_address http r.restaurant_address r.opencage_api_key = .ok none →
      predict_with_addresses http distF encCols enc featureCols model r =
        .error .geocodeRestaurantFailed ∧
      PredError.geocodeRestaurantFailed.statusCode = 400 ∧
      ∀ model2, predict_with_addresses http distF encCols enc featureCols model2 r =
        .error .geocodeRestaurantFailed) ∧
    (∀ rc, geocode_address http r.restaurant_address r.opencage_api_key = .ok (some rc) →
      geocode_address http r.delivery_address r.opencage_api_key = .ok none →
      predict_with_addresses http distF encCols enc featureCols model r =
        .error .geocodeDeliveryFailed ∧
      PredError.geocodeDeliveryFailed.statusCode = 400 ∧
      ∀ model2, predict_with_addresses http distF encCols enc featureCols model2 r =
        .error .geocodeDeliveryFailed) ∧
    (∀ rc dc,
      geocode_address http r.restaurant_address r.opencage_api_key = .ok (some rc) →
      geocode_address http r.delivery_address r.opencage_api_key = .ok (some dc) →
      (toCoordRequest r rc dc).valid →
      predict_with_addresses http distF encCols enc featureCols model r =
        (predict_delivery_time distF encCols enc featureCols model
          (toCoordRequest r rc dc)).map
          (fun res =>
            { base := res, geocoded_restaurant := rc, geocoded_delivery := dc })) := by
  refine ⟨?_, ?_, ?_⟩
  · intro h
    refine ⟨?_, rfl, fun model2 => ?_⟩ <;>
      simp [predict_with_addresses, h, Bind.bind, Except.bind, throw, throwThe,
        MonadExceptOf.throw]
  · intro rc h1 h2
    refine ⟨?_, rfl, fun model2 => ?_⟩ <;>
      simp [predict_with_addresses, h1, h2, Bind.bind, Except.bind, throw, throwThe,
        MonadExceptOf.throw]
  · intro rc dc h1 h2 hval
    simp only [predict_with_addresses, h1, h2, Bind.bind, Except.bind]
    rw [if_pos hval]
    cases hres : predict_delivery_time distF encCols enc featureCols model
        (toCoordRequest r rc dc) <;>
      simp [hres, Except.map, throw, throwThe, MonadExceptOf.throw, pure, Except.pure]
